import Mathlib

/-!
Shallow embedding of the clock-configuration module (src/clocks.rs) and the
RTC wakeup-interval encoder (src/rtc.rs) of the stm32l432kc HAL.

Modelling conventions:
* Rust `f32` values are modelled as rationals (ℚ).  Every concrete
  computation appearing in the theorems below involves only dyadic rationals
  whose products fit in an f32 mantissa, so the rational model agrees exactly
  with the f32 evaluation at those points.
* Rust saturating numeric casts (`as u8`, `as u16` on floats) truncate toward
  zero and clamp to the target range; they are modelled by `f32_as_u8` and
  `f32_as_u16`.
* `u8` fields are modelled as ℕ (the code never performs `u8` arithmetic on
  them; it only reads and converts them).
* Hardware register mutation is modelled as a trace: `Clocks.setup` returns
  the ordered list of register writes it performs, in source order.  Busy-wait
  loops in the source only read registers and are therefore not events in the
  trace.  `panic!` and the `Err` early return are both modelled with `Except`.
* The `pllsai2` register writes in `setup` are guarded by the `stm32l4x5` /
  `stm32l4x6` cargo features, which are off for this stm32l432kc crate, so
  they are compiled out and do not appear in the trace model.
-/

/-- Rust `as u8` on an `f32`: truncate toward zero, saturate to `[0, 255]`. -/
def f32_as_u8 (x : ℚ) : ℕ := min 255 (Int.toNat ⌊x⌋)

/-- Rust `as u16` on an `f32`: truncate toward zero, saturate to `[0, 65535]`. -/
def f32_as_u16 (x : ℚ) : ℕ := min 65535 (Int.toNat ⌊x⌋)

/-- Speed out of limits (src/clocks.rs `SpeedError`). -/
structure SpeedError where
deriving DecidableEq, Repr

/-- Calculated clock speeds, all in MHz (src/clocks.rs `Speeds`). -/
structure Speeds where
  sysclk : ℚ
  hclk : ℚ
  systick : ℚ
  fclk : ℚ
  pclk1 : ℚ
  timer1 : ℚ
  pclk2 : ℚ
  timer2 : ℚ
  usb : ℚ
deriving DecidableEq, Repr

/-- src/clocks.rs `Clk48Src`. -/
inductive Clk48Src
  | Hsi48
  | PllSai1
  | Pll
  | Msi
deriving DecidableEq, Repr

def Clk48Src.bits : Clk48Src → ℕ
  | .Hsi48 => 0b00
  | .PllSai1 => 0b01
  | .Pll => 0b10
  | .Msi => 0b11

/-- Is a set of speeds valid? (src/clocks.rs `Validation`). -/
inductive Validation
  | Valid
  | NotValid
deriving DecidableEq, Repr

/-- src/clocks.rs `MsiRange`. -/
inductive MsiRange
  | Range0
  | Range1
  | Range2
  | Range3
  | Range4
  | Range5
  | Range6
  | Range7
  | Range8
  | Range9
  | Range10
  | Range11
deriving DecidableEq, Repr

/-- The `repr(u8)` discriminant of `MsiRange`, as written to `msirange`. -/
def MsiRange.bits : MsiRange → ℕ
  | .Range0 => 0b0000
  | .Range1 => 0b0001
  | .Range2 => 0b0010
  | .Range3 => 0b0011
  | .Range4 => 0b0100
  | .Range5 => 0b0101
  | .Range6 => 0b0110
  | .Range7 => 0b0111
  | .Range8 => 0b1000
  | .Range9 => 0b1001
  | .Range10 => 0b1010
  | .Range11 => 0b1011

/-- src/clocks.rs `MsiRange::value`: the approximate frequency, in Hz. -/
def MsiRange.value : MsiRange → ℕ
  | .Range0 => 100000
  | .Range1 => 200000
  | .Range2 => 400000
  | .Range3 => 800000
  | .Range4 => 1000000
  | .Range5 => 2000000
  | .Range6 => 4000000
  | .Range7 => 8000000
  | .Range8 => 16000000
  | .Range9 => 24000000
  | .Range10 => 32000000
  | .Range11 => 48000000

/-- src/clocks.rs `PllSrc`; the `Hse` payload is the frequency in MHz. -/
inductive PllSrc
  | none
  | msi (range : MsiRange)
  | hsi
  | hse (freq : ℕ)
deriving DecidableEq, Repr

/-- src/clocks.rs `PllSrc::bits`. -/
def PllSrc.bits : PllSrc → ℕ
  | .none => 0b00
  | .msi _ => 0b01
  | .hsi => 0b10
  | .hse _ => 0b11

/-- src/clocks.rs `InputSrc`; the `Hse` payload is the frequency in MHz. -/
inductive InputSrc
  | msi (range : MsiRange)
  | hsi
  | hse (freq : ℕ)
  | pll (src : PllSrc)
deriving DecidableEq, Repr

/-- src/clocks.rs `InputSrc::bits`. -/
def InputSrc.bits : InputSrc → ℕ
  | .msi _ => 0b00
  | .hsi => 0b01
  | .hse _ => 0b10
  | .pll _ => 0b11

/-- src/clocks.rs `Pllm` (PLL input divider). -/
inductive Pllm
  | Div1
  | Div2
  | Div3
  | Div4
  | Div5
  | Div6
  | Div7
  | Div8
deriving DecidableEq, Repr

/-- src/clocks.rs `Pllm::value`. -/
def Pllm.value : Pllm → ℕ
  | .Div1 => 1
  | .Div2 => 2
  | .Div3 => 3
  | .Div4 => 4
  | .Div5 => 5
  | .Div6 => 6
  | .Div7 => 7
  | .Div8 => 8

/-- The `repr(u8)` discriminant of `Pllm`, as written to `pllm`. -/
def Pllm.bits : Pllm → ℕ
  | .Div1 => 0b000
  | .Div2 => 0b001
  | .Div3 => 0b010
  | .Div4 => 0b011
  | .Div5 => 0b100
  | .Div6 => 0b101
  | .Div7 => 0b110
  | .Div8 => 0b111

/-- src/clocks.rs `Pllr` (main PLL division factor for PLLCLK). -/
inductive Pllr
  | Div2
  | Div4
  | Div6
  | Div8
deriving DecidableEq, Repr

/-- src/clocks.rs `Pllr::value`. -/
def Pllr.value : Pllr → ℕ
  | .Div2 => 2
  | .Div4 => 4
  | .Div6 => 6
  | .Div8 => 8

/-- The `repr(u8)` discriminant of `Pllr`, as written to `pllr`. -/
def Pllr.bits : Pllr → ℕ
  | .Div2 => 0b00
  | .Div4 => 0b01
  | .Div6 => 0b10
  | .Div8 => 0b11

/-- src/clocks.rs `HclkPrescaler` (the AHB clock divider). -/
inductive HclkPrescaler
  | Div1
  | Div2
  | Div4
  | Div8
  | Div16
  | Div64
  | Div128
  | Div256
  | Div512
deriving DecidableEq, Repr

/-- src/clocks.rs `HclkPrescaler::value`. -/
def HclkPrescaler.value : HclkPrescaler → ℕ
  | .Div1 => 1
  | .Div2 => 2
  | .Div4 => 4
  | .Div8 => 8
  | .Div16 => 16
  | .Div64 => 64
  | .Div128 => 128
  | .Div256 => 256
  | .Div512 => 512

/-- The `repr(u8)` discriminant of `HclkPrescaler`, as written to `hpre`. -/
def HclkPrescaler.bits : HclkPrescaler → ℕ
  | .Div1 => 0b0000
  | .Div2 => 0b1000
  | .Div4 => 0b1001
  | .Div8 => 0b1010
  | .Div16 => 0b1011
  | .Div64 => 0b1100
  | .Div128 => 0b1101
  | .Div256 => 0b1110
  | .Div512 => 0b1111

/-- src/clocks.rs `ApbPrescaler` (APB1 / APB2 bus dividers). -/
inductive ApbPrescaler
  | Div1
  | Div2
  | Div4
  | Div8
  | Div16
deriving DecidableEq, Repr

/-- src/clocks.rs `ApbPrescaler::value`. -/
def ApbPrescaler.value : ApbPrescaler → ℕ
  | .Div1 => 1
  | .Div2 => 2
  | .Div4 => 4
  | .Div8 => 8
  | .Div16 => 16

/-- The `repr(u8)` discriminant of `ApbPrescaler`, as written to `ppre1`/`ppre2`. -/
def ApbPrescaler.bits : ApbPrescaler → ℕ
  | .Div1 => 0b000
  | .Div2 => 0b100
  | .Div4 => 0b101
  | .Div8 => 0b110
  | .Div16 => 0b111

/-- Settings used to configure clocks (src/clocks.rs `Clocks`). -/
structure Clocks where
  input_src : InputSrc
  pllm : Pllm
  pll_vco_mul : ℕ
  pll_sai1_mul : ℕ
  pll_sai2_mul : ℕ
  pllr : Pllr
  hclk_prescaler : HclkPrescaler
  apb1_prescaler : ApbPrescaler
  apb2_prescaler : ApbPrescaler
  clk48_src : Clk48Src
  sai1_enabled : Bool
  sai2_enabled : Bool
  hse_bypass : Bool
  security_system : Bool
deriving DecidableEq, Repr

/-- src/clocks.rs `calc_sysclock`: returns `(input_freq, sysclk)` in MHz. -/
def calc_sysclock (input_src : InputSrc) (pllm : Pllm) (pll_vco_mul : ℕ)
    (pllr : Pllr) : ℚ × ℚ :=
  match input_src with
  | .pll pll_src =>
    let input_freq : ℚ :=
      match pll_src with
      | .msi range => (range.value : ℚ) / 1000000
      | .hsi => 16
      | .hse freq => (freq : ℚ)
      | .none => 0
    (input_freq,
      input_freq / (pllm.value : ℚ) * (pll_vco_mul : ℚ) / (pllr.value : ℚ))
  | .msi range =>
    let input_freq : ℚ := (range.value : ℚ) / 1000000
    (input_freq, input_freq)
  | .hsi => (16, 16)
  | .hse freq => ((freq : ℚ), (freq : ℚ))

/-- src/clocks.rs `Clocks::calc_speeds`: clock speeds from a config, in MHz. -/
def Clocks.calc_speeds (c : Clocks) : Speeds :=
  let sysclk := (calc_sysclock c.input_src c.pllm c.pll_vco_mul c.pllr).2
  let input_freq := (calc_sysclock c.input_src c.pllm c.pll_vco_mul c.pllr).1
  let usb := input_freq / (c.pllm.value : ℚ) * (c.pll_sai1_mul : ℚ) / 2
  let hclk := sysclk / (c.hclk_prescaler.value : ℚ)
  let systick := hclk
  let fclk := hclk
  let pclk1 := hclk / (c.apb1_prescaler.value : ℚ)
  let timer1 := match c.apb1_prescaler with
    | .Div1 => pclk1
    | _ => pclk1 * 2
  let pclk2 := hclk / (c.apb2_prescaler.value : ℚ)
  let timer2 := match c.apb2_prescaler with
    | .Div1 => pclk2
    | _ => pclk2 * 2
  { sysclk := sysclk, hclk := hclk, systick := systick, fclk := fclk,
    pclk1 := pclk1, timer1 := timer1, pclk2 := pclk2, timer2 := timer2,
    usb := usb }

/-- src/clocks.rs free function `validate`: (main validation, USB validation).
The source mutates two `Validation` locals through a sequence of `if`s; the
`let` chain below mirrors that sequence, including the second check testing
`speeds.sysclk < 0` (not `hclk`) on its negative side. -/
def validate (speeds : Speeds) : Validation × Validation :=
  let main := Validation.Valid
  let usb := Validation.Valid
  let main := if speeds.sysclk > 80 ∨ speeds.sysclk < 0 then Validation.NotValid else main
  let main := if speeds.hclk > 80 ∨ speeds.sysclk < 0 then Validation.NotValid else main
  let main := if speeds.pclk1 > 80 ∨ speeds.pclk1 < 0 then Validation.NotValid else main
  let main := if speeds.pclk2 > 80 ∨ speeds.pclk2 < 0 then Validation.NotValid else main
  let usb := if f32_as_u8 speeds.usb ≠ 48 then Validation.NotValid else usb
  (main, usb)

/-- Alias for the free function `validate`: inside `Clocks.validate` below,
the bare name `validate` would resolve to the method itself. -/
def validateSpeeds : Speeds → Validation × Validation := validate

/-- src/clocks.rs `Clocks::validate`. -/
def Clocks.validate (c : Clocks) : Validation :=
  if c.pll_vco_mul < 7 ∨ c.pll_vco_mul > 86
      ∨ c.pll_sai1_mul < 7 ∨ c.pll_sai1_mul > 86
      ∨ c.pll_sai2_mul < 7 ∨ c.pll_sai2_mul > 86 then
    Validation.NotValid
  else
    (validateSpeeds c.calc_speeds).1

/-- src/clocks.rs `Clocks::validate_usb`. -/
def Clocks.validate_usb (c : Clocks) : Validation :=
  (validateSpeeds c.calc_speeds).2

/-- One hardware register write performed by `Clocks::setup`, in the order the
source performs them.  Busy-wait loops only read and are not events. -/
inductive RegWrite
  | flashAcrLatency (bits : ℕ)
  | rccCrMsiOn (range_bits : ℕ)
  | rccCrHseOn
  | rccCrHsiOn
  | rccCrHseBypass (b : Bool)
  | rccCrPllOff
  | rccPllCfgr (src plln pm pr : ℕ)
  | rccPllSai1CfgrN (n : ℕ)
  | rccCrPllOn
  | rccCrPllSai1On
  | rccPllCfgrOutEnables
  | rccPllSai1CfgrOutEnables
  | rccCfgr (sw hpre ppre2 ppre1 : ℕ)
  | rccCrCsson (b : Bool)
  | rccCciprClk48Sel (bits : ℕ)
  | rccCrrcrHsi48On
deriving DecidableEq, Repr

/-- src/clocks.rs `Clocks::setup`, as a trace of register writes.  The early
`Err` return on failed validation happens before any write; on success the
trace lists every `modify`/`write` in source order. -/
def Clocks.setup (c : Clocks) : Except SpeedError Unit × List RegWrite :=
  match c.validate with
  | .NotValid => (Except.error ⟨⟩, [])
  | .Valid =>
    let sysclk := (calc_sysclock c.input_src c.pllm c.pll_vco_mul c.pllr).2
    let hclk := sysclk / (c.hclk_prescaler.value : ℚ)
    let latency : ℕ :=
      if hclk ≤ 16 then 0b000
      else if hclk ≤ 32 then 0b001
      else if hclk ≤ 48 then 0b010
      else if hclk ≤ 64 then 0b011
      else 0b100
    let osc : List RegWrite :=
      match c.input_src with
      | .msi range => [.rccCrMsiOn range.bits]
      | .hse _ => [.rccCrHseOn]
      | .hsi => [.rccCrHsiOn]
      | .pll pll_src =>
        match pll_src with
        | .msi range => [.rccCrMsiOn range.bits]
        | .hse _ => [.rccCrHseOn]
        | .hsi => [.rccCrHsiOn]
        | .none => []
    let pllBlock : List RegWrite :=
      match c.input_src with
      | .pll pll_src =>
        [RegWrite.rccCrPllOff,
         RegWrite.rccPllCfgr pll_src.bits c.pll_vco_mul c.pllm.bits c.pllr.bits]
        ++ (if c.sai1_enabled then [RegWrite.rccPllSai1CfgrN c.pll_sai1_mul] else [])
        ++ [RegWrite.rccCrPllOn]
        ++ (if c.sai1_enabled then [RegWrite.rccCrPllSai1On] else [])
        ++ [RegWrite.rccPllCfgrOutEnables]
        ++ (if c.sai1_enabled then [RegWrite.rccPllSai1CfgrOutEnables] else [])
      | _ => []
    (Except.ok (),
      [RegWrite.flashAcrLatency latency]
      ++ osc
      ++ [RegWrite.rccCrHseBypass c.hse_bypass]
      ++ pllBlock
      ++ [RegWrite.rccCfgr c.input_src.bits c.hclk_prescaler.bits
            c.apb2_prescaler.bits c.apb1_prescaler.bits,
          RegWrite.rccCrCsson c.security_system,
          RegWrite.rccCciprClk48Sel c.clk48_src.bits]
      ++ (match c.clk48_src with
          | .Hsi48 => [RegWrite.rccCrrcrHsi48On]
          | _ => []))

/-- src/rtc.rs `RtcClockSource`. -/
inductive RtcClockSource
  | Lse
  | Lsi
  | Hse
deriving DecidableEq, Repr

/-- src/rtc.rs `WakeupDivision`. -/
inductive WakeupDivision
  | Sixteen
  | Eight
  | Four
  | Two
deriving DecidableEq, Repr

/-- src/rtc.rs `ClockConfig` (AN4759 table 13 modes). -/
inductive ClockConfig
  | One (d : WakeupDivision)
  | Two
  | Three
deriving DecidableEq, Repr

/-- src/rtc.rs `Rtc::set_wakeup_interval_inner`.  The method reads only
`self.config.clock_source` and performs exactly two register writes: the
`wut` field of `RTC_WUTR` (the f32 `wutr` cast with `as u16`) and the
`wcksel` field of `RTC_CR`; the model returns that pair `(wut, wcksel)`.
The source's `panic!` on an out-of-range sleep time is modelled as
`Except.error ()`. -/
def Rtc.set_wakeup_interval_inner (clock_source : RtcClockSource)
    (sleep_time : ℚ) : Except Unit (ℕ × ℕ) :=
  let lfe_freq : ℚ :=
    match clock_source with
    | .Lse => 32768
    | .Lsi => 32000
    | .Hse => 250000
  let branch : Except Unit (ClockConfig × ℚ) :=
    if sleep_time ≥ 0.00012207 ∧ sleep_time < 32 then
      let dd : WakeupDivision × ℚ :=
        if sleep_time < 4 then (.Two, 2)
        else if sleep_time < 8 then (.Four, 4)
        else if sleep_time < 16 then (.Eight, 8)
        else (.Sixteen, 16)
      Except.ok (ClockConfig.One dd.1, sleep_time * lfe_freq / dd.2 - 1)
    else if sleep_time < 65536 then
      Except.ok (ClockConfig.Two, sleep_time)
    else if sleep_time < 131072 then
      Except.ok (ClockConfig.Three, sleep_time - 65537)
    else
      Except.error ()
  match branch with
  | .error e => Except.error e
  | .ok (clock_cfg, wutr) =>
    let word : ℕ :=
      match clock_cfg with
      | .One d =>
        match d with
        | .Sixteen => 0b000
        | .Eight => 0b001
        | .Four => 0b010
        | .Two => 0b011
      | .Two => 0b100
      | .Three => 0b110
    Except.ok (f32_as_u16 wutr, word)

/-- src/clocks.rs `Clocks::hsi_preset`. -/
def Clocks.hsi_preset : Clocks :=
  { input_src := .pll .hsi
    pllm := .Div2
    pll_vco_mul := 20
    pll_sai1_mul := 8
    pll_sai2_mul := 8
    pllr := .Div2
    hclk_prescaler := .Div1
    apb1_prescaler := .Div1
    apb2_prescaler := .Div1
    clk48_src := .PllSai1
    sai1_enabled := false
    sai2_enabled := false
    hse_bypass := false
    security_system := false }

/-- The regime-A wakeup encoding as the spec words it (with the reload
truncated rather than rounded): the division band is picked by magnitude,
each band has a fixed divisor and 3-bit selector, and the reload is
`trunc(seconds * source_freq_hz / divisor) - 1` saturated to 16 bits. -/
def wakeup_encoding_spec (src : RtcClockSource) (s : ℚ) : ℕ × ℕ :=
  let source_freq_hz : ℚ :=
    match src with
    | .Lse => 32768
    | .Lsi => 32000
    | .Hse => 250000
  let dsel : ℚ × ℕ :=
    if s < 4 then (2, 0b011)
    else if s < 8 then (4, 0b010)
    else if s < 16 then (8, 0b001)
    else (16, 0b000)
  (min 65535 (Int.toNat (⌊s * source_freq_hz / dsel.1⌋ - 1)), dsel.2)

lemma pllm_value_pos (p : Pllm) : 0 < ((p.value : ℕ) : ℚ) := by
  cases p <;> norm_num [Pllm.value]

lemma pllr_value_pos (p : Pllr) : 0 < ((p.value : ℕ) : ℚ) := by
  cases p <;> norm_num [Pllr.value]

lemma f32_as_u16_eq (x : ℚ) (n : ℕ) (hn : n ≤ 65535) (h1 : (n : ℚ) ≤ x)
    (h2 : x < (n : ℚ) + 1) : f32_as_u16 x = n := by
  have hf : ⌊x⌋ = (n : ℤ) := by
    rw [Int.floor_eq_iff]
    constructor
    · exact_mod_cast h1
    · push_cast
      exact h2
  unfold f32_as_u16
  rw [hf, Int.toNat_natCast]
  omega

lemma f32_as_u16_sub_one (x : ℚ) :
    f32_as_u16 (x - 1) = min 65535 (Int.toNat (⌊x⌋ - 1)) := by
  unfold f32_as_u16
  rw [show (x - 1 : ℚ) = x - ((1 : ℤ) : ℚ) by norm_num, Int.floor_sub_int]

/-- A configuration that fails validation: `hsi_preset` with the main VCO
multiplier pushed to 90, outside the allowed `[7, 86]`. -/
def cfg_mul90 : Clocks := { Clocks.hsi_preset with pll_vco_mul := 90 }

def cfg_mul87 : Clocks := { Clocks.hsi_preset with pll_vco_mul := 87 }

def cfg_mul6 : Clocks := { Clocks.hsi_preset with pll_vco_mul := 6 }

def cfg_mul7 : Clocks := { Clocks.hsi_preset with pll_vco_mul := 7 }

def cfg_mul86 : Clocks := { Clocks.hsi_preset with pll_vco_mul := 86 }

/-- C1: if validation of the configuration yields `NotValid`, `setup` returns
a `SpeedError` and its register-write trace is empty: no RCC or FLASH
register is touched.  Register mutation can only begin after the pre-flight
validation has passed, because in the source the early `Err` return precedes
every `modify`/`write` call. -/
theorem setup_no_write_when_invalid (c : Clocks)
    (h : c.validate = Validation.NotValid) :
    c.setup = (Except.error ⟨⟩, []) := by
  unfold Clocks.setup
  rw [h]

/-- Witness for C1 at a concrete invalid configuration (VCO multiplier 90). -/
theorem setup_no_write_when_invalid_witness :
    cfg_mul90.validate = Validation.NotValid
      ∧ cfg_mul90.setup = (Except.error ⟨⟩, []) :=
  ⟨by simp [Clocks.validate, cfg_mul90, Clocks.hsi_preset],
   setup_no_write_when_invalid cfg_mul90
     (by simp [Clocks.validate, cfg_mul90, Clocks.hsi_preset])⟩

/-- C3: the multiplier range gate.  Any of the three PLL multipliers outside
`[7, 86]` forces `validate` to `NotValid`, regardless of the derived
frequencies; and when all three lie in `[7, 86]` the range check does not
fire, so the verdict is exactly the speeds validation. -/
theorem validate_multiplier_range_gate :
    (∀ c : Clocks,
        (c.pll_vco_mul < 7 ∨ c.pll_vco_mul > 86
            ∨ c.pll_sai1_mul < 7 ∨ c.pll_sai1_mul > 86
            ∨ c.pll_sai2_mul < 7 ∨ c.pll_sai2_mul > 86) →
        c.validate = Validation.NotValid) ∧
    (∀ c : Clocks,
        7 ≤ c.pll_vco_mul → c.pll_vco_mul ≤ 86 →
        7 ≤ c.pll_sai1_mul → c.pll_sai1_mul ≤ 86 →
        7 ≤ c.pll_sai2_mul → c.pll_sai2_mul ≤ 86 →
        c.validate = (validateSpeeds c.calc_speeds).1) := by
  constructor
  · intro c h
    unfold Clocks.validate
    rw [if_pos h]
  · intro c h1 h2 h3 h4 h5 h6
    unfold Clocks.validate
    rw [if_neg (by omega)]

/-- Witness for C3 at the boundary multipliers: 87 and 6 are rejected by the
range gate, 7 and 86 fall through to the speeds validation. -/
theorem validate_multiplier_range_gate_witness :
    cfg_mul87.validate = Validation.NotValid
      ∧ cfg_mul6.validate = Validation.NotValid
      ∧ cfg_mul7.validate = (validateSpeeds cfg_mul7.calc_speeds).1
      ∧ cfg_mul86.validate = (validateSpeeds cfg_mul86.calc_speeds).1 :=
  ⟨validate_multiplier_range_gate.1 cfg_mul87 (by right; left; decide),
   validate_multiplier_range_gate.1 cfg_mul6 (by left; decide),
   validate_multiplier_range_gate.2 cfg_mul7
     (by decide) (by decide) (by decide) (by decide) (by decide) (by decide),
   validate_multiplier_range_gate.2 cfg_mul86
     (by decide) (by decide) (by decide) (by decide) (by decide) (by decide)⟩

/-- C9: whenever the three PLL multipliers lie in `[7, 86]` and the resolved
input frequency is strictly positive, the derived sysclk is strictly
positive, whatever the oscillator source. -/
theorem calc_sysclock_pos (c : Clocks)
    (h1 : 7 ≤ c.pll_vco_mul) (h2 : c.pll_vco_mul ≤ 86)
    (h3 : 7 ≤ c.pll_sai1_mul) (h4 : c.pll_sai1_mul ≤ 86)
    (h5 : 7 ≤ c.pll_sai2_mul) (h6 : c.pll_sai2_mul ≤ 86)
    (hin : 0 < (calc_sysclock c.input_src c.pllm c.pll_vco_mul c.pllr).1) :
    0 < (calc_sysclock c.input_src c.pllm c.pll_vco_mul c.pllr).2 := by
  have hmul : (0 : ℚ) < (c.pll_vco_mul : ℚ) := by
    have : 0 < c.pll_vco_mul := by omega
    exact_mod_cast this
  rcases hsrc : c.input_src with range | _ | freq | src
  all_goals rw [hsrc] at hin
  · exact hin
  · exact hin
  · exact hin
  · cases src
    all_goals
      unfold calc_sysclock at hin ⊢
      dsimp only at hin ⊢
      exact div_pos (mul_pos (div_pos hin (pllm_value_pos c.pllm)) hmul)
        (pllr_value_pos c.pllr)

/-- Witness for C9: `hsi_preset` resolves to input 16 MHz and sysclk 80 MHz. -/
theorem calc_sysclock_pos_witness :
    0 < (calc_sysclock Clocks.hsi_preset.input_src Clocks.hsi_preset.pllm
          Clocks.hsi_preset.pll_vco_mul Clocks.hsi_preset.pllr).2 :=
  calc_sysclock_pos Clocks.hsi_preset
    (by decide) (by decide) (by decide) (by decide) (by decide) (by decide)
    (by norm_num [Clocks.hsi_preset, calc_sysclock])

/-- C10: `validate_usb` returns `Valid` exactly when the derived usb speed,
truncated to an integer number of MHz, is 48; the PLL multiplier range check
gates only the primary verdict, never the USB verdict (nothing in
`validate_usb` looks at the multipliers, and the equivalence holds for every
configuration, out-of-range multipliers included). -/
theorem validate_usb_iff (c : Clocks) :
    c.validate_usb = Validation.Valid ↔ ⌊c.calc_speeds.usb⌋ = 48 := by
  unfold Clocks.validate_usb validateSpeeds validate
  dsimp only
  split_ifs with h
  · refine iff_of_false (by simp) fun hf => h ?_
    unfold f32_as_u8
    rw [hf]
    omega
  · push_neg at h
    refine iff_of_true rfl ?_
    unfold f32_as_u8 at h
    omega

lemma validate_main_valid_iff_raw (s : Speeds) :
    (validate s).1 = Validation.Valid ↔
      ¬(s.sysclk > 80 ∨ s.sysclk < 0) ∧ ¬(s.hclk > 80 ∨ s.sysclk < 0)
        ∧ ¬(s.pclk1 > 80 ∨ s.pclk1 < 0) ∧ ¬(s.pclk2 > 80 ∨ s.pclk2 < 0) := by
  unfold validate
  dsimp only
  split_ifs <;> simp_all

/-- C2 (amended): the primary verdict is `Valid` exactly when `sysclk`,
`pclk1` and `pclk2` each lie in the closed interval `[0, 80]` MHz and
`hclk ≤ 80`; a speed of exactly 0 does not force `Invalid` (the checks use
strict `< 0`), and `hclk` has no lower-bound check of its own (the second
check re-tests `sysclk < 0`). -/
theorem validate_main_iff (s : Speeds) :
    (validate s).1 = Validation.Valid ↔
      (0 ≤ s.sysclk ∧ s.sysclk ≤ 80 ∧ s.hclk ≤ 80
        ∧ 0 ≤ s.pclk1 ∧ s.pclk1 ≤ 80 ∧ 0 ≤ s.pclk2 ∧ s.pclk2 ≤ 80) := by
  rw [validate_main_valid_iff_raw]
  push_neg
  constructor
  · rintro ⟨⟨a, b⟩, ⟨c, _⟩, ⟨d, e⟩, ⟨f, g⟩⟩
    exact ⟨b, a, c, e, d, g, f⟩
  · rintro ⟨a, b, c, d, e, f, g⟩
    exact ⟨⟨b, a⟩, ⟨c, a⟩, ⟨e, d⟩, ⟨g, f⟩⟩

/-- Counterexample to C2 as stated: the all-zero speeds are accepted by the
main validation although `sysclk = 0` does not lie in the half-open interval
`(0, 80]`; the source checks `sysclk < 0.`, not `<= 0.`. -/
theorem validate_zero_speeds_accepted :
    (validate { sysclk := 0, hclk := 0, systick := 0, fclk := 0, pclk1 := 0,
                timer1 := 0, pclk2 := 0, timer2 := 0, usb := 0 }).1
        = Validation.Valid
      ∧ ({ sysclk := 0, hclk := 0, systick := 0, fclk := 0, pclk1 := 0,
           timer1 := 0, pclk2 := 0, timer2 := 0, usb := 0 } : Speeds).sysclk
          = 0 := by
  constructor
  · norm_num [validate]
  · rfl

/-- A configuration whose input source is the PLL with no source selected:
`hsi_preset` with `input_src` replaced by `Pll(PllSrc::None)`. -/
def cfg_pll_none : Clocks := { Clocks.hsi_preset with input_src := .pll .none }

/-- C4 (amended): with input source `Pll(PllSrc::None)` the frequency
derivation yields `input_freq = 0` and `sysclk = 0` without failing, but the
subsequent validation does NOT reject the configuration: since every derived
speed is 0 and the ceiling check only rejects speeds `> 80` or strictly
`< 0`, the primary verdict is `Valid` whenever the three multipliers are in
`[7, 86]`. -/
theorem calc_sysclock_pll_none (c : Clocks) (h : c.input_src = .pll .none) :
    (calc_sysclock c.input_src c.pllm c.pll_vco_mul c.pllr).1 = 0
      ∧ (calc_sysclock c.input_src c.pllm c.pll_vco_mul c.pllr).2 = 0
      ∧ (7 ≤ c.pll_vco_mul → c.pll_vco_mul ≤ 86 →
          7 ≤ c.pll_sai1_mul → c.pll_sai1_mul ≤ 86 →
          7 ≤ c.pll_sai2_mul → c.pll_sai2_mul ≤ 86 →
          c.validate = Validation.Valid) := by
  refine ⟨by rw [h]; norm_num [calc_sysclock], by rw [h]; norm_num [calc_sysclock], ?_⟩
  intro h1 h2 h3 h4 h5 h6
  unfold Clocks.validate
  rw [if_neg (by omega)]
  unfold validateSpeeds
  rw [validate_main_valid_iff_raw]
  unfold Clocks.calc_speeds
  rw [h]
  norm_num [calc_sysclock]

/-- Witness for C4 (and counterexample to C4 as stated, which predicted the
validator would reject such a configuration): a concrete `Pll(PllSrc::None)`
configuration derives 0 MHz everywhere and still validates as `Valid`. -/
theorem calc_sysclock_pll_none_witness :
    (calc_sysclock cfg_pll_none.input_src cfg_pll_none.pllm
        cfg_pll_none.pll_vco_mul cfg_pll_none.pllr).1 = 0
      ∧ (calc_sysclock cfg_pll_none.input_src cfg_pll_none.pllm
          cfg_pll_none.pll_vco_mul cfg_pll_none.pllr).2 = 0
      ∧ cfg_pll_none.validate = Validation.Valid :=
  ⟨(calc_sysclock_pll_none cfg_pll_none rfl).1,
   (calc_sysclock_pll_none cfg_pll_none rfl).2.1,
   (calc_sysclock_pll_none cfg_pll_none rfl).2.2 (by decide) (by decide)
     (by decide) (by decide) (by decide) (by decide)⟩

/-- Counterexample to C4 as stated: validation accepts (primary `Valid`) the
`Pll(PllSrc::None)` configuration it was claimed to reject. -/
theorem cfg_pll_none_not_rejected : cfg_pll_none.validate = Validation.Valid :=
  (calc_sysclock_pll_none cfg_pll_none rfl).2.2 (by decide) (by decide)
    (by decide) (by decide) (by decide) (by decide)

/-- The configuration of C5, which is also the source's `Default` for
`Clocks`: PLL fed by an 8 MHz HSE, input divider 1, VCO multiplier 20,
output divider 2, all bus prescalers 1. -/
def cfg_hse8 : Clocks :=
  { input_src := .pll (.hse 8)
    pllm := .Div1
    pll_vco_mul := 20
    pll_sai1_mul := 8
    pll_sai2_mul := 8
    pllr := .Div2
    hclk_prescaler := .Div1
    apb1_prescaler := .Div1
    apb2_prescaler := .Div1
    clk48_src := .PllSai1
    sai1_enabled := false
    sai2_enabled := false
    hse_bypass := false
    security_system := false }

def cfg_hse8_apb1div2 : Clocks := { cfg_hse8 with apb1_prescaler := .Div2 }

/-- C5: for the 8 MHz HSE configuration with divider 1, VCO multiplier 20,
output divider 2 and unit prescalers, `calc_speeds` yields sysclk, hclk,
pclk1 and timer1 all at 80 MHz and `validate` reports `Valid`; with the
APB1 prescaler at `Div2` instead, pclk1 drops to 40 MHz while timer1 is
doubled back to 80 MHz. -/
theorem calc_speeds_hse8 :
    cfg_hse8.calc_speeds.sysclk = 80
      ∧ cfg_hse8.calc_speeds.hclk = 80
      ∧ cfg_hse8.calc_speeds.pclk1 = 80
      ∧ cfg_hse8.calc_speeds.timer1 = 80
      ∧ cfg_hse8.validate = Validation.Valid
      ∧ cfg_hse8_apb1div2.calc_speeds.pclk1 = 40
      ∧ cfg_hse8_apb1div2.calc_speeds.timer1 = 80 := by
  refine ⟨?_, ?_, ?_, ?_, ?_, ?_, ?_⟩ <;>
    norm_num [cfg_hse8, cfg_hse8_apb1div2, Clocks.calc_speeds, calc_sysclock,
      Clocks.validate, validateSpeeds, validate, Pllm.value, Pllr.value,
      HclkPrescaler.value, ApbPrescaler.value]

/-- C6 (amended): the MSI range table holds exactly the 12 fixed frequencies
running from 0.1 MHz (range 0) to 48 MHz (range 11), and it doubles from a
rank to the next except at exactly four irregular steps: 3 to 4
(0.8 to 1 MHz), 8 to 9 (16 to 24 MHz), 9 to 10 (24 to 32 MHz) and 10 to 11
(32 to 48 MHz).  Values are in Hz; 1 MHz = 1000000 Hz. -/
theorem msi_range_table :
    (MsiRange.Range0.value = 100000 ∧ MsiRange.Range1.value = 200000
      ∧ MsiRange.Range2.value = 400000 ∧ MsiRange.Range3.value = 800000
      ∧ MsiRange.Range4.value = 1000000 ∧ MsiRange.Range5.value = 2000000
      ∧ MsiRange.Range6.value = 4000000 ∧ MsiRange.Range7.value = 8000000
      ∧ MsiRange.Range8.value = 16000000 ∧ MsiRange.Range9.value = 24000000
      ∧ MsiRange.Range10.value = 32000000 ∧ MsiRange.Range11.value = 48000000)
    ∧ (MsiRange.Range1.value = 2 * MsiRange.Range0.value
      ∧ MsiRange.Range2.value = 2 * MsiRange.Range1.value
      ∧ MsiRange.Range3.value = 2 * MsiRange.Range2.value
      ∧ MsiRange.Range5.value = 2 * MsiRange.Range4.value
      ∧ MsiRange.Range6.value = 2 * MsiRange.Range5.value
      ∧ MsiRange.Range7.value = 2 * MsiRange.Range6.value
      ∧ MsiRange.Range8.value = 2 * MsiRange.Range7.value)
    ∧ (MsiRange.Range4.value ≠ 2 * MsiRange.Range3.value
      ∧ MsiRange.Range9.value ≠ 2 * MsiRange.Range8.value
      ∧ MsiRange.Range10.value ≠ 2 * MsiRange.Range9.value
      ∧ MsiRange.Range11.value ≠ 2 * MsiRange.Range10.value) := by
  decide

/-- Counterexample to C6 as stated: the steps 3 to 4 and 10 to 11 are also
non-doubling, so the irregular steps are not exactly the two at 8 to 9 and
9 to 10. -/
theorem msi_range_extra_irregular_steps :
    MsiRange.Range4.value ≠ 2 * MsiRange.Range3.value
      ∧ MsiRange.Range11.value ≠ 2 * MsiRange.Range10.value := by
  decide

/-- C7: the wakeup encoder panics (modelled as `Except.error`) only for
requests at or above 131072 seconds.  A request of 200000 seconds fails as
the claim says, but a request of 0.00005 seconds — below the documented
minimum of 0.00012207 — is NOT rejected: it falls into the
`sleep_time < 65536` branch and is silently encoded with selector `0b100`
and reload 0, contradicting the panic message in the source, which states
the period must be between 122.07 microseconds and 36 hours. -/
theorem wakeup_below_min_not_rejected :
    Rtc.set_wakeup_interval_inner .Lse 0.00005 = Except.ok (0, 0b100)
      ∧ Rtc.set_wakeup_interval_inner .Lse 200000 = Except.error () := by
  constructor
  · norm_num [Rtc.set_wakeup_interval_inner]
    exact f32_as_u16_eq _ 0 (by norm_num) (by norm_num) (by norm_num)
  · norm_num [Rtc.set_wakeup_interval_inner]

/-- C8 (amended): for durations in Regime A `[0.00012207, 32)` the encoder
picks the division band by magnitude (divisor 2 and selector `0b011` below
4 s, divisor 4 and `0b010` below 8 s, divisor 8 and `0b001` below 16 s, else
divisor 16 and `0b000`), with source frequency 32768 Hz for LSE, 32000 Hz
for LSI and 250000 Hz for HSE, and
`reload = trunc(seconds * source_freq_hz / divisor) - 1` saturated to 16
bits — truncated, not rounded.  Concretely, 1.0 second with LSE yields
selector `0b011` and reload 16383, and 40.0 seconds (Regime B) yields
selector `0b100` and reload 40 for every source. -/
theorem wakeup_regimeA (src : RtcClockSource) (s : ℚ)
    (hlo : 0.00012207 ≤ s) (hhi : s < 32) :
    Rtc.set_wakeup_interval_inner src s = Except.ok (wakeup_encoding_spec src s)
      ∧ Rtc.set_wakeup_interval_inner .Lse 1 = Except.ok (16383, 0b011)
      ∧ (∀ src2 : RtcClockSource,
          Rtc.set_wakeup_interval_inner src2 40 = Except.ok (40, 0b100)) := by
  refine ⟨?_, ?_, ?_⟩
  · unfold Rtc.set_wakeup_interval_inner wakeup_encoding_spec
    cases src <;>
    · dsimp only
      rw [if_pos ⟨hlo, hhi⟩]
      split_ifs <;> dsimp only <;> rw [f32_as_u16_sub_one]
  · norm_num [Rtc.set_wakeup_interval_inner]
    exact f32_as_u16_eq _ 16383 (by norm_num) (by norm_num) (by norm_num)
  · intro src2
    cases src2 <;>
    · norm_num [Rtc.set_wakeup_interval_inner]
      exact f32_as_u16_eq _ 40 (by norm_num) (by norm_num) (by norm_num)

/-- Witness for C8 at LSE and 1.0 second: the hypotheses hold and the spec
encoding evaluates to reload 16383 with selector `0b011`. -/
theorem wakeup_regimeA_witness :
    Rtc.set_wakeup_interval_inner .Lse 1 = Except.ok (wakeup_encoding_spec .Lse 1)
      ∧ wakeup_encoding_spec .Lse 1 = (16383, 0b011) := by
  constructor
  · exact (wakeup_regimeA .Lse 1 (by norm_num) (by norm_num)).1
  · norm_num [wakeup_encoding_spec]
    decide

/-- Counterexample to C8 as stated: at 403/65536 seconds (about 6.15 ms,
exactly representable in f32) with LSE source the encoder computes
`403/65536 * 32768 / 2 - 1 = 99.75` and truncates to reload 99, while the
claimed formula `round(seconds * source_freq_hz / divisor) - 1` gives
`round(100.75) - 1 = 100`. -/
theorem wakeup_reload_not_rounded :
    Rtc.set_wakeup_interval_inner .Lse (403 / 65536) = Except.ok (99, 0b011)
      ∧ round ((403 : ℚ) / 65536 * 32768 / 2) - 1 = 100 := by
  constructor
  · norm_num [Rtc.set_wakeup_interval_inner]
    exact f32_as_u16_eq _ 99 (by norm_num) (by norm_num) (by norm_num)
  · rw [round_eq, show (403 : ℚ) / 65536 * 32768 / 2 + 1 / 2 = 405 / 4 by norm_num]
    rw [show ⌊(405 : ℚ) / 4⌋ = 101 from by rw [Int.floor_eq_iff] <;> norm_num]
    norm_num
